import Mathlib

/-!
Verification of the force/coefficient integration and edge-coloring subsystem of
a finite-volume flow solver (`CFVMFlowSolverBase.inl`).

The embedding models `su2double` as `ℚ` (exact field arithmetic standing in for
IEEE doubles).  Transcendental helpers of the C library (`sqrt`, `pow(x, 1/8)`,
and the trigonometric values `cos/sin` of the flow angles) are passed in as
abstract parameters, since none of the verified properties depend on their
numeric values, only on where the code applies them.
-/

namespace SU2

/-- Modelled from the spec: EPS is the fixed small constant preventing division
by zero in the derived-ratio computations (`CL/(CD+EPS)`, `CT/(CQ+EPS)`);
its definition lives outside the provided source file. -/
def EPS : ℚ := 1 / 10 ^ 16

/-- Sum of `f i` for `i < n`; models the C accumulation loops
`for (iDim = 0; iDim < nDim; iDim++) acc += f(iDim);`. -/
def sumTo (n : ℕ) (f : ℕ → ℚ) : ℚ := ∑ i in Finset.range n, f i

/-- The 16 named aerodynamic coefficients of one accumulator slot
(the per-entity schema of `AeroCoeffsArray` and of the scalar `AeroCoeffs`
totals like `TotalCoeff`, `AllBoundInvCoeff`, ...). -/
structure AeroCoeffs where
  CD : ℚ := 0
  CL : ℚ := 0
  CSF : ℚ := 0
  CEff : ℚ := 0
  CFx : ℚ := 0
  CFy : ℚ := 0
  CFz : ℚ := 0
  CMx : ℚ := 0
  CMy : ℚ := 0
  CMz : ℚ := 0
  CoPx : ℚ := 0
  CoPy : ℚ := 0
  CoPz : ℚ := 0
  CT : ℚ := 0
  CQ : ℚ := 0
  CMerit : ℚ := 0
deriving DecidableEq

/-- The all-zero coefficient record (result of `setZero` on one slot). -/
def AeroCoeffs.zero : AeroCoeffs := {}

/-- `AeroCoeffsArray`: sixteen parallel arrays of length `_size`, one entry per
marker (or per monitored surface), exactly as allocated by
`AeroCoeffsArray::allocate`. -/
structure AeroCoeffsArray where
  CD : List ℚ
  CL : List ℚ
  CSF : List ℚ
  CEff : List ℚ
  CFx : List ℚ
  CFy : List ℚ
  CFz : List ℚ
  CMx : List ℚ
  CMy : List ℚ
  CMz : List ℚ
  CoPx : List ℚ
  CoPy : List ℚ
  CoPz : List ℚ
  CT : List ℚ
  CQ : List ℚ
  CMerit : List ℚ

/-- Names of the 16 coefficient fields, used to quantify over all of them. -/
inductive CoeffField
  | cd | cl | csf | ceff | cfx | cfy | cfz | cmx
  | cmy | cmz | copx | copy | copz | ct | cq | cmerit
deriving DecidableEq

/-- Select one of the 16 backing arrays of an `AeroCoeffsArray`. -/
def AeroCoeffsArray.field (a : AeroCoeffsArray) : CoeffField → List ℚ
  | .cd => a.CD
  | .cl => a.CL
  | .csf => a.CSF
  | .ceff => a.CEff
  | .cfx => a.CFx
  | .cfy => a.CFy
  | .cfz => a.CFz
  | .cmx => a.CMx
  | .cmy => a.CMy
  | .cmz => a.CMz
  | .copx => a.CoPx
  | .copy => a.CoPy
  | .copz => a.CoPz
  | .ct => a.CT
  | .cq => a.CQ
  | .cmerit => a.CMerit

/-- Read field `f` at slot `i` (out-of-range reads return `none`). -/
def AeroCoeffsArray.read (a : AeroCoeffsArray) (f : CoeffField) (i : ℕ) : Option ℚ :=
  (a.field f)[i]?

/-- Modelled from the spec: the no-argument overload `AeroCoeffsArray::setZero()`
(declared in the missing header) resets every slot of all 16 fields to 0. -/
def AeroCoeffsArray.setZero (a : AeroCoeffsArray) : AeroCoeffsArray where
  CD := a.CD.map fun _ => 0
  CL := a.CL.map fun _ => 0
  CSF := a.CSF.map fun _ => 0
  CEff := a.CEff.map fun _ => 0
  CFx := a.CFx.map fun _ => 0
  CFy := a.CFy.map fun _ => 0
  CFz := a.CFz.map fun _ => 0
  CMx := a.CMx.map fun _ => 0
  CMy := a.CMy.map fun _ => 0
  CMz := a.CMz.map fun _ => 0
  CoPx := a.CoPx.map fun _ => 0
  CoPy := a.CoPy.map fun _ => 0
  CoPz := a.CoPz.map fun _ => 0
  CT := a.CT.map fun _ => 0
  CQ := a.CQ.map fun _ => 0
  CMerit := a.CMerit.map fun _ => 0

/-- `AeroCoeffsArray::setZero(int i)`: reset slot `i` of all 16 fields to 0
(out-of-range `i` leaves the arrays unchanged, mirroring `List.set`). -/
def AeroCoeffsArray.setZeroIdx (a : AeroCoeffsArray) (i : ℕ) : AeroCoeffsArray where
  CD := a.CD.set i 0
  CL := a.CL.set i 0
  CSF := a.CSF.set i 0
  CEff := a.CEff.set i 0
  CFx := a.CFx.set i 0
  CFy := a.CFy.set i 0
  CFz := a.CFz.set i 0
  CMx := a.CMx.set i 0
  CMy := a.CMy.set i 0
  CMz := a.CMz.set i 0
  CoPx := a.CoPx.set i 0
  CoPy := a.CoPy.set i 0
  CoPz := a.CoPz.set i 0
  CT := a.CT.set i 0
  CQ := a.CQ.set i 0
  CMerit := a.CMerit.set i 0

/-- `AeroCoeffsArray::allocate(int size)`: `operator new[]` leaves the sixteen
arrays with indeterminate contents (modelled by the arbitrary value `junk`),
then `setZero()` zeroes every slot. -/
def AeroCoeffsArray.allocate (junk : ℚ) (size : ℕ) : AeroCoeffsArray :=
  AeroCoeffsArray.setZero
    { CD := List.replicate size junk
      CL := List.replicate size junk
      CSF := List.replicate size junk
      CEff := List.replicate size junk
      CFx := List.replicate size junk
      CFy := List.replicate size junk
      CFz := List.replicate size junk
      CMx := List.replicate size junk
      CMy := List.replicate size junk
      CMz := List.replicate size junk
      CoPx := List.replicate size junk
      CoPy := List.replicate size junk
      CoPz := List.replicate size junk
      CT := List.replicate size junk
      CQ := List.replicate size junk
      CMerit := List.replicate size junk }

/-! ## Shared per-vertex geometry helpers -/

/-- Axisymmetric revolution factor: `AxiFactor = 2*PI_NUMBER*Coord[1]` when the
axisymmetric option is on, else `1` (identical lines in all three passes). -/
def axiFactorOf (axisymmetric : Bool) (piNumber : ℚ) (coord : ℕ → ℚ) : ℚ :=
  if axisymmetric then 2 * piNumber * coord 1 else 1

/-- The moment accumulators of one marker: `Moment*[0..2]` together with the
helper sums `MomentX_Force`, `MomentY_Force`, `MomentZ_Force`. -/
structure MomentAcc where
  m : ℕ → ℚ
  mx : ℕ → ℚ
  my : ℕ → ℚ
  mz : ℕ → ℚ

/-- Zero-initialized moment accumulators (`= {0.0}` at the top of each marker). -/
def MomentAcc.zero : MomentAcc := ⟨fun _ => 0, fun _ => 0, fun _ => 0, fun _ => 0⟩

/-- Final value of the loop counter of `for (iDim = 0; iDim < nDim; iDim++)`:
the counter is incremented once per iteration, so it is read as `nDim` by the
code that follows the loop. -/
def forceLoopCounter (nDim : ℕ) : ℕ :=
  (List.range nDim).foldl (fun i _ => i + 1) 0

/-- Per-vertex moment accumulation of `Pressure_Forces` (guard `nDim == 3`):
cross products divided by `RefLength` plus the center-of-pressure helper sums. -/
def pressureMomentUpdate (nDim : ℕ) (refLength : ℚ) (force dist coord : ℕ → ℚ)
    (a : MomentAcc) : MomentAcc :=
  let a :=
    if nDim = 3 then
      { a with
        m := fun i =>
          if i = 0 then a.m 0 + (force 2 * dist 1 - force 1 * dist 2) / refLength
          else if i = 1 then a.m 1 + (force 0 * dist 2 - force 2 * dist 0) / refLength
          else a.m i
        mx := fun i =>
          if i = 1 then a.mx 1 + (-(force 1) * coord 2)
          else if i = 2 then a.mx 2 + force 2 * coord 1
          else a.mx i
        my := fun i =>
          if i = 2 then a.my 2 + (-(force 2) * coord 0)
          else if i = 0 then a.my 0 + force 0 * coord 2
          else a.my i }
    else a
  { a with
    m := fun i =>
      if i = 2 then a.m 2 + (force 1 * dist 0 - force 0 * dist 1) / refLength else a.m i
    mz := fun i =>
      if i = 0 then a.mz 0 + (-(force 0) * coord 1)
      else if i = 1 then a.mz 1 + force 1 * coord 0
      else a.mz i }

/-- Per-vertex moment accumulation of `Momentum_Forces`: the 3D branch is
guarded by `iDim == 3` where `iDim` is the loop counter left over from the
force loop that just ran to `nDim`. -/
def momentumMomentUpdate (nDim : ℕ) (refLength : ℚ) (force dist coord : ℕ → ℚ)
    (a : MomentAcc) : MomentAcc :=
  let a :=
    if forceLoopCounter nDim = 3 then
      { a with
        m := fun i =>
          if i = 0 then a.m 0 + (force 2 * dist 1 - force 1 * dist 2) / refLength
          else if i = 1 then a.m 1 + (force 0 * dist 2 - force 2 * dist 0) / refLength
          else a.m i
        mx := fun i =>
          if i = 1 then a.mx 1 + (-(force 1) * coord 2)
          else if i = 2 then a.mx 2 + force 2 * coord 1
          else a.mx i
        my := fun i =>
          if i = 2 then a.my 2 + (-(force 2) * coord 0)
          else if i = 0 then a.my 0 + force 0 * coord 2
          else a.my i }
    else a
  { a with
    m := fun i =>
      if i = 2 then a.m 2 + (force 1 * dist 0 - force 0 * dist 1) / refLength else a.m i
    mz := fun i =>
      if i = 0 then a.mz 0 + (-(force 0) * coord 1)
      else if i = 1 then a.mz 1 + force 1 * coord 0
      else a.mz i }

/-- Per-vertex moment accumulation of `Friction_Forces`: same `iDim == 3` guard
reading the counter left by the viscous force loop. -/
def frictionMomentUpdate (nDim : ℕ) (refLength : ℚ) (force dist coord : ℕ → ℚ)
    (a : MomentAcc) : MomentAcc :=
  let a :=
    if forceLoopCounter nDim = 3 then
      { a with
        m := fun i =>
          if i = 0 then a.m 0 + (force 2 * dist 1 - force 1 * dist 2) / refLength
          else if i = 1 then a.m 1 + (force 0 * dist 2 - force 2 * dist 0) / refLength
          else a.m i
        mx := fun i =>
          if i = 1 then a.mx 1 + (-(force 1) * coord 2)
          else if i = 2 then a.mx 2 + force 2 * coord 1
          else a.mx i
        my := fun i =>
          if i = 2 then a.my 2 + (-(force 2) * coord 0)
          else if i = 0 then a.my 0 + force 0 * coord 2
          else a.my i }
    else a
  { a with
    m := fun i =>
      if i = 2 then a.m 2 + (force 1 * dist 0 - force 0 * dist 1) / refLength else a.m i
    mz := fun i =>
      if i = 0 then a.mz 0 + (-(force 0) * coord 1)
      else if i = 1 then a.mz 1 + force 1 * coord 0
      else a.mz i }

/-! ## Configuration and boundary kinds -/

/-- The configuration values consumed by the three force-integration passes
(all read through the `CConfig`/free-stream interface).  The trigonometric
values `cos/sin` of the angle of attack `Alpha` and sideslip `Beta` are stored
directly since the passes only use them through `cos(...)`/`sin(...)`. -/
structure Cfg where
  nDim : ℕ
  refArea : ℚ
  refLength : ℚ
  refDensity : ℚ
  refVel2 : ℚ
  pressureInf : ℚ
  gamma : ℚ
  gasConstant : ℚ
  prandtlLam : ℚ
  refHeatFlux : ℚ
  piNumber : ℚ
  cosAlpha : ℚ
  sinAlpha : ℚ
  cosBeta : ℚ
  sinBeta : ℚ
  origin : ℕ → ℚ
  axisymmetric : Bool
  compressible : Bool
  energy : Bool
  qcr : Bool

/-- `factor = 1.0 / (0.5*RefDensity*RefArea*RefVel2)`. -/
def Cfg.factor (c : Cfg) : ℚ := 1 / (1 / 2 * c.refDensity * c.refArea * c.refVel2)

/-- Boundary-condition kinds relevant to the three passes. -/
inductive BoundaryKind
  | solidWall
  | nearfield
  | inletFlow
  | outletFlow
  | actdiskInlet
  | actdiskOutlet
  | engineInflow
  | engineExhaust
  | heatFluxWall
  | isothermal
  | chtWallInterface
  | other
deriving DecidableEq

/-- Marker eligibility test of `Pressure_Forces` (solid wall, nearfield,
inlet/outlet, actuator-disk and engine boundaries). -/
def pressureEligible : BoundaryKind → Bool
  | .solidWall | .nearfield | .inletFlow | .outletFlow
  | .actdiskInlet | .actdiskOutlet | .engineInflow | .engineExhaust => true
  | _ => false

/-- Marker eligibility test of `Momentum_Forces` (inlet/outlet, actuator-disk
and engine boundaries only). -/
def momentumEligible : BoundaryKind → Bool
  | .inletFlow | .outletFlow | .actdiskInlet | .actdiskOutlet
  | .engineInflow | .engineExhaust => true
  | _ => false

/-- Marker eligibility test of `Friction_Forces` (heat-flux, isothermal and
conjugate-heat-transfer walls). -/
def frictionEligible : BoundaryKind → Bool
  | .heatFluxWall | .isothermal | .chtWallInterface => true
  | _ => false

/-! ## Pressure_Forces: per-vertex and per-marker integration -/

/-- Geometry and flow state read at one boundary vertex by `Pressure_Forces`. -/
structure PressureVertexIn where
  pressure : ℚ
  normal : ℕ → ℚ
  coord : ℕ → ℚ
  domain : Bool

/-- Mutable per-marker state of the `Pressure_Forces` vertex loop. -/
structure PressureMarkerState where
  CPressure : List ℚ
  NFPressOF : ℚ
  ForceInviscid : ℕ → ℚ
  macc : MomentAcc

/-- Initial per-marker state (`ForceInviscid/Moment* = {0.0}`, `NFPressOF = 0`). -/
def PressureMarkerState.init : PressureMarkerState :=
  ⟨[], 0, fun _ => 0, MomentAcc.zero⟩

/-- Padded per-vertex force of `Pressure_Forces`:
`Force[iDim] = -(Pressure - Pressure_Inf)*Normal[iDim]*factor*AxiFactor` for
`iDim < nDim`, zero above (`su2double Force[MAXNDIM] = {0.0}`). -/
def pressureForceContrib (c : Cfg) (v : PressureVertexIn) (i : ℕ) : ℚ :=
  if i < c.nDim then
    -(v.pressure - c.pressureInf) * v.normal i * c.factor * axiFactorOf c.axisymmetric c.piNumber v.coord
  else 0

/-- One iteration of the `Pressure_Forces` vertex loop: the pressure
coefficient is recorded for every vertex (halo nodes included), the force,
near-field objective and moment sums only for domain-owned nodes of a
monitored marker. -/
def pressureVertexStep (c : Cfg) (monitoring : Bool)
    (s : PressureMarkerState) (v : PressureVertexIn) : PressureMarkerState :=
  let s := { s with
    CPressure := s.CPressure ++ [(v.pressure - c.pressureInf) * c.factor * c.refArea] }
  if v.domain && monitoring then
    let force := pressureForceContrib c v
    let dist : ℕ → ℚ := fun i => if i < c.nDim then v.coord i - c.origin i else 0
    { s with
      NFPressOF := s.NFPressOF +
        1 / 2 * (v.pressure - c.pressureInf) * (v.pressure - c.pressureInf) * v.normal (c.nDim - 1)
      ForceInviscid := fun i =>
        if i < c.nDim then s.ForceInviscid i + force i else s.ForceInviscid i
      macc := pressureMomentUpdate c.nDim c.refLength force dist v.coord s.macc }
  else s

/-- The whole `Pressure_Forces` vertex loop over one marker. -/
def pressureMarkerRun (c : Cfg) (monitoring : Bool) (verts : List PressureVertexIn) :
    PressureMarkerState :=
  verts.foldl (pressureVertexStep c monitoring) PressureMarkerState.init

/-- Wind-axis projection of `Pressure_Forces` (the `nDim == 2` / `nDim == 3`
blocks writing `InvCoeff` for a monitored non-nearfield marker); starts from
the slot zeroed by `InvCoeff.setZero(iMarker)`. -/
def pressureProject (c : Cfg) (s : PressureMarkerState) : AeroCoeffs :=
  let F := s.ForceInviscid
  let M := s.macc
  if c.nDim = 2 then
    let cd := F 0 * c.cosAlpha + F 1 * c.sinAlpha
    let cl := -(F 0) * c.sinAlpha + F 1 * c.cosAlpha
    let cmz := M.m 2
    let cfx := F 0
    let ct := -cfx
    let cq := -cmz
    { AeroCoeffs.zero with
      CD := cd, CL := cl, CEff := cl / (cd + EPS), CMz := cmz
      CoPx := M.mz 1, CoPy := -(M.mz 0), CFx := cfx, CFy := F 1
      CT := ct, CQ := cq, CMerit := ct / (cq + EPS) }
  else if c.nDim = 3 then
    let cd := F 0 * c.cosAlpha * c.cosBeta + F 1 * c.sinBeta + F 2 * c.sinAlpha * c.cosBeta
    let cl := -(F 0) * c.sinAlpha + F 2 * c.cosAlpha
    let csf := -(F 0) * c.sinBeta * c.cosAlpha + F 1 * c.cosBeta - F 2 * c.sinBeta * c.sinAlpha
    let cmz := M.m 2
    let cfz := F 2
    let ct := -cfz
    let cq := -cmz
    { AeroCoeffs.zero with
      CD := cd, CL := cl, CSF := csf, CEff := cl / (cd + EPS)
      CMx := M.m 0, CMy := M.m 1, CMz := cmz
      CoPx := -(M.my 0), CoPz := M.my 2
      CFx := F 0, CFy := F 1, CFz := cfz
      CT := ct, CQ := cq, CMerit := ct / (cq + EPS) }
  else AeroCoeffs.zero

/-- Per-marker outputs of `Pressure_Forces`: the `InvCoeff` slot, the
`CNearFieldOF_Inv` slot and the `CPressure` visualization row. -/
structure PressureMarkerOut where
  InvCoeff : AeroCoeffs
  CNearFieldOF_Inv : ℚ
  CPressure : List ℚ

/-- One eligible marker of `Pressure_Forces`: zero the slots, run the vertex
loop, then project (non-nearfield) or store the raw near-field objective —
both only when the marker is monitored. -/
def pressureMarker (c : Cfg) (boundary : BoundaryKind) (monitoring : Bool)
    (verts : List PressureVertexIn) : PressureMarkerOut :=
  let s := pressureMarkerRun c monitoring verts
  if monitoring then
    if boundary ≠ .nearfield then
      { InvCoeff := pressureProject c s, CNearFieldOF_Inv := 0, CPressure := s.CPressure }
    else
      { InvCoeff := AeroCoeffs.zero, CNearFieldOF_Inv := s.NFPressOF, CPressure := s.CPressure }
  else
    { InvCoeff := AeroCoeffs.zero, CNearFieldOF_Inv := 0, CPressure := s.CPressure }

/-! ## Momentum_Forces: per-vertex and per-marker integration -/

/-- Geometry and flow state read at one boundary vertex by `Momentum_Forces`. -/
structure MomentumVertexIn where
  velocity : ℕ → ℚ
  density : ℚ
  normal : ℕ → ℚ
  coord : ℕ → ℚ
  domain : Bool

/-- Mutable per-marker state of the `Momentum_Forces` vertex loop. -/
structure MomentumMarkerState where
  ForceMomentum : ℕ → ℚ
  macc : MomentAcc

/-- Initial per-marker state of `Momentum_Forces`. -/
def MomentumMarkerState.init : MomentumMarkerState := ⟨fun _ => 0, MomentAcc.zero⟩

/-- `MassFlow -= Normal[iDim]*Velocity[iDim]*Density` accumulated over
`iDim < nDim` starting from zero. -/
def massFlowOf (c : Cfg) (v : MomentumVertexIn) : ℚ :=
  -(sumTo c.nDim fun i => v.normal i * v.velocity i * v.density)

/-- Padded per-vertex momentum-flux force:
`Force[iDim] = MassFlow*Velocity[iDim]*factor*AxiFactor` for `iDim < nDim`. -/
def momentumForceContrib (c : Cfg) (v : MomentumVertexIn) (i : ℕ) : ℚ :=
  if i < c.nDim then
    massFlowOf c v * v.velocity i * c.factor * axiFactorOf c.axisymmetric c.piNumber v.coord
  else 0

/-- One iteration of the `Momentum_Forces` vertex loop: contributions are taken
only for domain-owned nodes of a monitored marker (no visualization array is
written by this pass). -/
def momentumVertexStep (c : Cfg) (monitoring : Bool)
    (s : MomentumMarkerState) (v : MomentumVertexIn) : MomentumMarkerState :=
  if v.domain && monitoring then
    let force := momentumForceContrib c v
    let dist : ℕ → ℚ := fun i => if i < c.nDim then v.coord i - c.origin i else 0
    { ForceMomentum := fun i =>
        if i < c.nDim then s.ForceMomentum i + force i else s.ForceMomentum i
      macc := momentumMomentUpdate c.nDim c.refLength force dist v.coord s.macc }
  else s

/-- The whole `Momentum_Forces` vertex loop over one marker. -/
def momentumMarkerRun (c : Cfg) (monitoring : Bool) (verts : List MomentumVertexIn) :
    MomentumMarkerState :=
  verts.foldl (momentumVertexStep c monitoring) MomentumMarkerState.init

/-- Wind-axis projection of `Momentum_Forces` writing the `MntCoeff` slot
(starting from the slot zeroed by `MntCoeff.setZero(iMarker)`). -/
def momentumProject (c : Cfg) (s : MomentumMarkerState) : AeroCoeffs :=
  let F := s.ForceMomentum
  let M := s.macc
  if c.nDim = 2 then
    let cd := F 0 * c.cosAlpha + F 1 * c.sinAlpha
    let cl := -(F 0) * c.sinAlpha + F 1 * c.cosAlpha
    let cmz := M.m 2
    let cfx := F 0
    let ct := -cfx
    let cq := -cmz
    { AeroCoeffs.zero with
      CD := cd, CL := cl, CEff := cl / (cd + EPS), CFx := cfx, CFy := F 1
      CMz := cmz, CoPx := M.mz 1, CoPy := -(M.mz 0)
      CT := ct, CQ := cq, CMerit := ct / (cq + EPS) }
  else if c.nDim = 3 then
    let cd := F 0 * c.cosAlpha * c.cosBeta + F 1 * c.sinBeta + F 2 * c.sinAlpha * c.cosBeta
    let cl := -(F 0) * c.sinAlpha + F 2 * c.cosAlpha
    let csf := -(F 0) * c.sinBeta * c.cosAlpha + F 1 * c.cosBeta - F 2 * c.sinBeta * c.sinAlpha
    let cmz := M.m 2
    let cfz := F 2
    let ct := -cfz
    let cq := -cmz
    { AeroCoeffs.zero with
      CD := cd, CL := cl, CSF := csf, CEff := cl / (cd + EPS)
      CFx := F 0, CFy := F 1, CFz := cfz
      CMx := M.m 0, CMy := M.m 1, CMz := cmz
      CoPx := -(M.my 0), CoPz := M.my 2
      CT := ct, CQ := cq, CMerit := ct / (cq + EPS) }
  else AeroCoeffs.zero

/-- The `MntCoeff` slot produced for one eligible marker of `Momentum_Forces`:
zeroed by `setZero(iMarker)`, overwritten by the projection only when the
marker is monitored. -/
def momentumMarker (c : Cfg) (monitoring : Bool) (verts : List MomentumVertexIn) :
    AeroCoeffs :=
  if monitoring then momentumProject c (momentumMarkerRun c monitoring verts)
  else AeroCoeffs.zero

/-- The `AllBoundMntCoeff` update run once per monitored eligible marker of
`Momentum_Forces` (transcribing the sequence of `+=`/`=` statements: note that
the source adds `MntCoeff.CMz` into the `CMx` accumulator, never accumulates
`CMz` itself, and accumulates `CMerit` with `+=`). -/
def allBoundMntStep (ab m : AeroCoeffs) : AeroCoeffs :=
  let cd := ab.CD + m.CD
  let cl := ab.CL + m.CL
  let ct := ab.CT + m.CT
  let cq := ab.CQ + m.CQ
  { CD := cd
    CL := cl
    CSF := ab.CSF + m.CSF
    CEff := cl / (cd + EPS)
    CFx := ab.CFx + m.CFx
    CFy := ab.CFy + m.CFy
    CFz := ab.CFz + m.CFz
    CMx := ab.CMx + m.CMx + m.CMz
    CMy := ab.CMy + m.CMy
    CMz := ab.CMz
    CoPx := ab.CoPx + m.CoPx
    CoPy := ab.CoPy + m.CoPy
    CoPz := ab.CoPz + m.CoPz
    CT := ct
    CQ := cq
    CMerit := ab.CMerit + ct / (cq + EPS) }

/-- `AllBoundMntCoeff` after the marker loop of `Momentum_Forces`, given the
projected `MntCoeff` records of the monitored eligible markers in loop order
(the accumulator starts from `AllBoundMntCoeff.setZero()`). -/
def allBoundMntFold (ms : List AeroCoeffs) : AeroCoeffs :=
  ms.foldl allBoundMntStep AeroCoeffs.zero

/-! ## Friction_Forces: per-vertex viscous computation -/

/-- Geometry and flow state read at one boundary vertex by `Friction_Forces`.
`gradVel i j` is `Grad_Vel[i][j]` (the gradient of velocity component `i`
along direction `j`), `condNode` the stored thermal conductivity used in the
INCOMPRESSIBLE regime. -/
structure FrictionVertexIn where
  gradVel : ℕ → ℕ → ℚ
  gradTemp : ℕ → ℚ
  viscosity : ℚ
  density : ℚ
  condNode : ℚ
  normal : ℕ → ℚ
  coord : ℕ → ℚ
  coordNormal : ℕ → ℚ
  domain : Bool

/-- Kronecker delta (`delta[3][3]` identity matrix in the source). -/
def kdelta (i j : ℕ) : ℚ := if i = j then 1 else 0

/-- `Area = sqrt(sum of Normal[iDim]^2)`: Euclidean norm of the face normal,
with the library square root passed in abstractly. -/
def faceArea (sqrtF : ℚ → ℚ) (nDim : ℕ) (normal : ℕ → ℚ) : ℚ :=
  sqrtF (sumTo nDim fun i => normal i * normal i)

/-- `UnitNormal[iDim] = Normal[iDim]/Area` — an unguarded division. -/
def unitNormalOf (sqrtF : ℚ → ℚ) (nDim : ℕ) (normal : ℕ → ℚ) (i : ℕ) : ℚ :=
  normal i / faceArea sqrtF nDim normal

/-- `div_vel`: trace of the velocity gradient. -/
def divVel (nDim : ℕ) (g : ℕ → ℕ → ℚ) : ℚ := sumTo nDim fun i => g i i

/-- The base viscous stress tensor
`Tau = mu*(grad u + grad u^T) - (2/3)*mu*div(u)*I`. -/
def tauBase (nDim : ℕ) (visc : ℚ) (g : ℕ → ℕ → ℚ) (i j : ℕ) : ℚ :=
  visc * (g j i + g i j) - 2 / 3 * visc * divVel nDim g * kdelta i j

/-- The floored denominator of the QCR rotation tensor:
`sqrt(max(sum of Grad_Vel^2, 1E-10))`. -/
def qcrDen (sqrtF : ℚ → ℚ) (nDim : ℕ) (g : ℕ → ℕ → ℚ) : ℚ :=
  sqrtF (max (sumTo nDim fun i => sumTo nDim fun j => g i j * g i j) (1 / 10 ^ 10))

/-- The QCR correction sum `tauQCR[i][j]` built from the normalized rotation
tensor and the base stress tensor. -/
def tauQCRterm (sqrtF : ℚ → ℚ) (nDim : ℕ) (visc : ℚ) (g : ℕ → ℕ → ℚ) (i j : ℕ) : ℚ :=
  sumTo nDim fun k =>
    (g i k - g k i) / qcrDen sqrtF nDim g * tauBase nDim visc g j k +
    (g j k - g k j) / qcrDen sqrtF nDim g * tauBase nDim visc g i k

/-- The stress tensor actually projected: base `Tau`, minus `c_cr1 = 0.3`
times the QCR correction when the QCR option is on. -/
def tauOf (sqrtF : ℚ → ℚ) (c : Cfg) (v : FrictionVertexIn) (i j : ℕ) : ℚ :=
  if c.qcr then
    tauBase c.nDim v.viscosity v.gradVel i j - 3 / 10 * tauQCRterm sqrtF c.nDim v.viscosity v.gradVel i j
  else tauBase c.nDim v.viscosity v.gradVel i j

/-- `TauElem[iDim]`: the stress tensor applied to the unit outward normal. -/
def tauElem (sqrtF : ℚ → ℚ) (c : Cfg) (v : FrictionVertexIn) (i : ℕ) : ℚ :=
  sumTo c.nDim fun j => tauOf sqrtF c v i j * unitNormalOf sqrtF c.nDim v.normal j

/-- `TauNormal`: normal component of the traction vector. -/
def tauNormal (sqrtF : ℚ → ℚ) (c : Cfg) (v : FrictionVertexIn) : ℚ :=
  sumTo c.nDim fun i => tauElem sqrtF c v i * unitNormalOf sqrtF c.nDim v.normal i

/-- `TauTangent[iDim]`: tangential component of the traction vector. -/
def tauTangent (sqrtF : ℚ → ℚ) (c : Cfg) (v : FrictionVertexIn) (i : ℕ) : ℚ :=
  tauElem sqrtF c v i - tauNormal sqrtF c v * unitNormalOf sqrtF c.nDim v.normal i

/-- `CSkinFriction[iMarker][iDim][iVertex] = TauTangent/(0.5*RefDensity*RefVel2)`. -/
def cSkinFrictionVal (sqrtF : ℚ → ℚ) (c : Cfg) (v : FrictionVertexIn) (i : ℕ) : ℚ :=
  tauTangent sqrtF c v i / (1 / 2 * c.refDensity * c.refVel2)

/-- `WallShearStress`: Euclidean norm of the tangential traction. -/
def wallShearStress (sqrtF : ℚ → ℚ) (c : Cfg) (v : FrictionVertexIn) : ℚ :=
  sqrtF (sumTo c.nDim fun i => tauTangent sqrtF c v i * tauTangent sqrtF c v i)

/-- `WallDistMod`: distance from the wall node to its nearest interior node. -/
def wallDistMod (sqrtF : ℚ → ℚ) (c : Cfg) (v : FrictionVertexIn) : ℚ :=
  sqrtF (sumTo c.nDim fun i => (v.coord i - v.coordNormal i) * (v.coord i - v.coordNormal i))

/-- `FrictionVel = sqrt(fabs(WallShearStress)/Density)` — unguarded division
by `Density`. -/
def frictionVel (sqrtF : ℚ → ℚ) (c : Cfg) (v : FrictionVertexIn) : ℚ :=
  sqrtF (|wallShearStress sqrtF c v| / v.density)

/-- `YPlus = WallDistMod*FrictionVel/(Viscosity/Density)` — unguarded division
by the kinematic viscosity. -/
def yPlusVal (sqrtF : ℚ → ℚ) (c : Cfg) (v : FrictionVertexIn) : ℚ :=
  wallDistMod sqrtF c v * frictionVel sqrtF c v / (v.viscosity / v.density)

/-- `GradTemperature`: minus the normal projection of the temperature
gradient; in the INCOMPRESSIBLE regime it is only accumulated when the energy
equation is active (otherwise it stays `0.0`). -/
def gradTemperatureOf (sqrtF : ℚ → ℚ) (c : Cfg) (v : FrictionVertexIn) : ℚ :=
  if c.compressible then
    -(sumTo c.nDim fun i => v.gradTemp i * unitNormalOf sqrtF c.nDim v.normal i)
  else if c.energy then
    -(sumTo c.nDim fun i => v.gradTemp i * unitNormalOf sqrtF c.nDim v.normal i)
  else 0

/-- Thermal conductivity: `Cp*Viscosity/Prandtl_Lam` with
`Cp = (Gamma/(Gamma-1))*Gas_Constant` for COMPRESSIBLE, the stored nodal field
for INCOMPRESSIBLE. -/
def thermalConductivityOf (c : Cfg) (v : FrictionVertexIn) : ℚ :=
  if c.compressible then c.gamma / (c.gamma - 1) * c.gasConstant * v.viscosity / c.prandtlLam
  else v.condNode

/-- `HeatFlux[iMarker][iVertex] = -thermal_conductivity*GradTemperature*RefHeatFlux`. -/
def heatFluxVal (sqrtF : ℚ → ℚ) (c : Cfg) (v : FrictionVertexIn) : ℚ :=
  -(thermalConductivityOf c v) * gradTemperatureOf sqrtF c v * c.refHeatFlux

/-! ## Friction_Forces: per-marker integration -/

/-- Mutable per-marker state of the `Friction_Forces` vertex loop
(visualization rows plus the gated force/heat accumulators). -/
structure FrictionMarkerState where
  CSkinFriction : List (ℕ → ℚ)
  YPlus : List ℚ
  HeatFlux : List ℚ
  HF : ℚ
  MaxHF : ℚ
  ForceViscous : ℕ → ℚ
  macc : MomentAcc

/-- Initial per-marker state (`HF_Visc[iMarker] = MaxHF_Visc[iMarker] = 0`). -/
def FrictionMarkerState.init : FrictionMarkerState :=
  ⟨[], [], [], 0, 0, fun _ => 0, MomentAcc.zero⟩

/-- Padded per-vertex viscous force
`Force[iDim] = TauElem[iDim]*Area*factor*AxiFactor` for `iDim < nDim`. -/
def frictionForceContrib (sqrtF : ℚ → ℚ) (c : Cfg) (v : FrictionVertexIn) (i : ℕ) : ℚ :=
  if i < c.nDim then
    tauElem sqrtF c v i * faceArea sqrtF c.nDim v.normal * c.factor *
      axiFactorOf c.axisymmetric c.piNumber v.coord
  else 0

/-- One iteration of the `Friction_Forces` vertex loop: skin friction, y+ and
heat flux are recorded for every vertex (halo nodes included); force, moment
and the heat-flux sums only for domain-owned nodes of a monitored marker
(`MaxHF` accumulates `pow(HeatFlux, MaxNorm)` with `MaxNorm = 8.0`). -/
def frictionVertexStep (sqrtF : ℚ → ℚ) (c : Cfg) (monitoring : Bool)
    (s : FrictionMarkerState) (v : FrictionVertexIn) : FrictionMarkerState :=
  let s := { s with
    CSkinFriction := s.CSkinFriction ++ [fun i => cSkinFrictionVal sqrtF c v i]
    YPlus := s.YPlus ++ [yPlusVal sqrtF c v]
    HeatFlux := s.HeatFlux ++ [heatFluxVal sqrtF c v] }
  if v.domain && monitoring then
    let force := frictionForceContrib sqrtF c v
    let dist : ℕ → ℚ := fun i => if i < c.nDim then v.coord i - c.origin i else 0
    { s with
      ForceViscous := fun i =>
        if i < c.nDim then s.ForceViscous i + force i else s.ForceViscous i
      macc := frictionMomentUpdate c.nDim c.refLength force dist v.coord s.macc
      HF := s.HF + heatFluxVal sqrtF c v * faceArea sqrtF c.nDim v.normal
      MaxHF := s.MaxHF + heatFluxVal sqrtF c v ^ 8 }
  else s

/-- The whole `Friction_Forces` vertex loop over one marker. -/
def frictionMarkerRun (sqrtF : ℚ → ℚ) (c : Cfg) (monitoring : Bool)
    (verts : List FrictionVertexIn) : FrictionMarkerState :=
  verts.foldl (frictionVertexStep sqrtF c monitoring) FrictionMarkerState.init

/-- Wind-axis projection of `Friction_Forces` for a monitored marker: writes
the `ViscCoeff` slot (zeroed by `setZero(iMarker)`) and applies
`MaxHF_Visc[iMarker] = pow(MaxHF_Visc[iMarker], 1.0/MaxNorm)` inside the
dimension branches; `root8` is the abstract `pow(., 1/8)`. -/
def frictionProject (root8 : ℚ → ℚ) (c : Cfg) (s : FrictionMarkerState) :
    AeroCoeffs × ℚ :=
  let F := s.ForceViscous
  let M := s.macc
  if c.nDim = 2 then
    let cd := F 0 * c.cosAlpha + F 1 * c.sinAlpha
    let cl := -(F 0) * c.sinAlpha + F 1 * c.cosAlpha
    let cmz := M.m 2
    let cfx := F 0
    let ct := -cfx
    let cq := -cmz
    ({ AeroCoeffs.zero with
       CD := cd, CL := cl, CEff := cl / (cd + EPS), CFx := cfx, CFy := F 1
       CMz := cmz, CoPx := M.mz 1, CoPy := -(M.mz 0)
       CT := ct, CQ := cq, CMerit := ct / (cq + EPS) },
     root8 s.MaxHF)
  else if c.nDim = 3 then
    let cd := F 0 * c.cosAlpha * c.cosBeta + F 1 * c.sinBeta + F 2 * c.sinAlpha * c.cosBeta
    let cl := -(F 0) * c.sinAlpha + F 2 * c.cosAlpha
    let csf := -(F 0) * c.sinBeta * c.cosAlpha + F 1 * c.cosBeta - F 2 * c.sinBeta * c.sinAlpha
    let cmz := M.m 2
    let cfz := F 2
    let ct := -cfz
    let cq := -cmz
    ({ AeroCoeffs.zero with
       CD := cd, CL := cl, CSF := csf, CEff := cl / (cd + EPS)
       CFx := F 0, CFy := F 1, CFz := cfz
       CMx := M.m 0, CMy := M.m 1, CMz := cmz
       CoPx := -(M.my 0), CoPz := M.my 2
       CT := ct, CQ := cq, CMerit := ct / (cq + EPS) },
     root8 s.MaxHF)
  else (AeroCoeffs.zero, s.MaxHF)

/-- Per-marker outputs of `Friction_Forces`. -/
structure FrictionMarkerOut where
  ViscCoeff : AeroCoeffs
  HF : ℚ
  MaxHF : ℚ
  CSkinFriction : List (ℕ → ℚ)
  YPlus : List ℚ
  HeatFlux : List ℚ

/-- One eligible marker of `Friction_Forces`: zero the slots, run the vertex
loop, then project and root the `MaxHF` sum only when the marker is
monitored. -/
def frictionMarker (sqrtF root8 : ℚ → ℚ) (c : Cfg) (monitoring : Bool)
    (verts : List FrictionVertexIn) : FrictionMarkerOut :=
  let s := frictionMarkerRun sqrtF c monitoring verts
  if monitoring then
    let pm := frictionProject root8 c s
    { ViscCoeff := pm.1, HF := s.HF, MaxHF := pm.2
      CSkinFriction := s.CSkinFriction, YPlus := s.YPlus, HeatFlux := s.HeatFlux }
  else
    { ViscCoeff := AeroCoeffs.zero, HF := s.HF, MaxHF := s.MaxHF
      CSkinFriction := s.CSkinFriction, YPlus := s.YPlus, HeatFlux := s.HeatFlux }

/-- `AllBound_MaxHF_Visc` of one process: the marker loop accumulates
`+= pow(MaxHF_Visc[iMarker], MaxNorm)` over the monitored markers and the
pass then applies `pow(., 1.0/MaxNorm)` once. -/
def allBoundMaxHF (root8 : ℚ → ℚ) (markerVals : List ℚ) : ℚ :=
  root8 (markerVals.foldl (fun acc m => acc + m ^ 8) 0)

/-! ## Cross-process reduction -/

/-- Modelled from the spec: the black-box `SU2_MPI::Allreduce(..., MPI_SUM, ...)`
primitive sums one scalar over all participating ranks. -/
def Allreduce (xs : List ℚ) : ℚ := xs.sum

/-- Zero out the two derived-ratio fields, leaving the raw sums; used to state
that the reductions never read the per-rank `CEff`/`CMerit` values. -/
def scrubRatios (a : AeroCoeffs) : AeroCoeffs :=
  { a with CEff := 0, CMerit := 0 }

/-- The `COMM_FULL` reduction of `AllBoundInvCoeff` in `Pressure_Forces`:
each raw field is replaced by its all-reduce over the ranks' pre-reduction
states, then `CEff` and `CMerit` are recomputed from the reduced sums. -/
def reduceAllBoundInv (ranks : List AeroCoeffs) : AeroCoeffs :=
  let cd := Allreduce (ranks.map AeroCoeffs.CD)
  let cl := Allreduce (ranks.map AeroCoeffs.CL)
  let ct := Allreduce (ranks.map AeroCoeffs.CT)
  let cq := Allreduce (ranks.map AeroCoeffs.CQ)
  { CD := cd
    CL := cl
    CSF := Allreduce (ranks.map AeroCoeffs.CSF)
    CEff := cl / (cd + EPS)
    CMx := Allreduce (ranks.map AeroCoeffs.CMx)
    CMy := Allreduce (ranks.map AeroCoeffs.CMy)
    CMz := Allreduce (ranks.map AeroCoeffs.CMz)
    CoPx := Allreduce (ranks.map AeroCoeffs.CoPx)
    CoPy := Allreduce (ranks.map AeroCoeffs.CoPy)
    CoPz := Allreduce (ranks.map AeroCoeffs.CoPz)
    CFx := Allreduce (ranks.map AeroCoeffs.CFx)
    CFy := Allreduce (ranks.map AeroCoeffs.CFy)
    CFz := Allreduce (ranks.map AeroCoeffs.CFz)
    CT := ct
    CQ := cq
    CMerit := ct / (cq + EPS) }

/-- The `COMM_FULL` reduction of `AllBoundMntCoeff` in `Momentum_Forces`
(same discipline as the inviscid one). -/
def reduceAllBoundMnt (ranks : List AeroCoeffs) : AeroCoeffs :=
  let cd := Allreduce (ranks.map AeroCoeffs.CD)
  let cl := Allreduce (ranks.map AeroCoeffs.CL)
  let ct := Allreduce (ranks.map AeroCoeffs.CT)
  let cq := Allreduce (ranks.map AeroCoeffs.CQ)
  { CD := cd
    CL := cl
    CSF := Allreduce (ranks.map AeroCoeffs.CSF)
    CEff := cl / (cd + EPS)
    CFx := Allreduce (ranks.map AeroCoeffs.CFx)
    CFy := Allreduce (ranks.map AeroCoeffs.CFy)
    CFz := Allreduce (ranks.map AeroCoeffs.CFz)
    CMx := Allreduce (ranks.map AeroCoeffs.CMx)
    CMy := Allreduce (ranks.map AeroCoeffs.CMy)
    CMz := Allreduce (ranks.map AeroCoeffs.CMz)
    CoPx := Allreduce (ranks.map AeroCoeffs.CoPx)
    CoPy := Allreduce (ranks.map AeroCoeffs.CoPy)
    CoPz := Allreduce (ranks.map AeroCoeffs.CoPz)
    CT := ct
    CQ := cq
    CMerit := ct / (cq + EPS) }

/-- The `COMM_FULL` reduction of `AllBoundViscCoeff` in `Friction_Forces`
(same discipline again). -/
def reduceAllBoundVisc (ranks : List AeroCoeffs) : AeroCoeffs :=
  let cd := Allreduce (ranks.map AeroCoeffs.CD)
  let cl := Allreduce (ranks.map AeroCoeffs.CL)
  let ct := Allreduce (ranks.map AeroCoeffs.CT)
  let cq := Allreduce (ranks.map AeroCoeffs.CQ)
  { CD := cd
    CL := cl
    CSF := Allreduce (ranks.map AeroCoeffs.CSF)
    CEff := cl / (cd + EPS)
    CMx := Allreduce (ranks.map AeroCoeffs.CMx)
    CMy := Allreduce (ranks.map AeroCoeffs.CMy)
    CMz := Allreduce (ranks.map AeroCoeffs.CMz)
    CFx := Allreduce (ranks.map AeroCoeffs.CFx)
    CFy := Allreduce (ranks.map AeroCoeffs.CFy)
    CFz := Allreduce (ranks.map AeroCoeffs.CFz)
    CoPx := Allreduce (ranks.map AeroCoeffs.CoPx)
    CoPy := Allreduce (ranks.map AeroCoeffs.CoPy)
    CoPz := Allreduce (ranks.map AeroCoeffs.CoPz)
    CT := ct
    CQ := cq
    CMerit := ct / (cq + EPS) }

/-- The cross-process combination of `AllBound_MaxHF_Visc`:
`pow(Allreduce(pow(local, MaxNorm)), 1.0/MaxNorm)` — 8th powers are summed,
never the pre-rooted values. -/
def reduceAllBoundMaxHF (root8 : ℚ → ℚ) (locals : List ℚ) : ℚ :=
  root8 (Allreduce (locals.map fun x => x ^ 8))

/-- One slot of the per-surface `COMM_FULL` reduction (the
`Allreduce_inplace` block, identical in all three passes): `CL/CD/CSF` and the
force/moment components are summed across the ranks' values for this
monitored-surface index, `CEff` is recomputed from the reduced `CL`/`CD`, and
the remaining fields keep the local value `x`. -/
def reduceSurfaceAt (ranks : List AeroCoeffs) (x : AeroCoeffs) : AeroCoeffs :=
  let cd := Allreduce (ranks.map AeroCoeffs.CD)
  let cl := Allreduce (ranks.map AeroCoeffs.CL)
  { CL := cl
    CD := cd
    CSF := Allreduce (ranks.map AeroCoeffs.CSF)
    CEff := cl / (cd + EPS)
    CFx := Allreduce (ranks.map AeroCoeffs.CFx)
    CFy := Allreduce (ranks.map AeroCoeffs.CFy)
    CFz := Allreduce (ranks.map AeroCoeffs.CFz)
    CMx := Allreduce (ranks.map AeroCoeffs.CMx)
    CMy := Allreduce (ranks.map AeroCoeffs.CMy)
    CMz := Allreduce (ranks.map AeroCoeffs.CMz)
    CoPx := x.CoPx
    CoPy := x.CoPy
    CoPz := x.CoPz
    CT := x.CT
    CQ := x.CQ
    CMerit := x.CMerit }

/-! ## HybridParallelInitialization (edge-coloring / reducer strategy) -/

/-- Result of `HybridParallelInitialization` on one process: the reducer flag,
the `EdgeColoring` groups as `(number of edges in the color, group size)`
pairs, and the `EdgeFluxes` allocation as `(rows, nVar)` when performed. -/
structure HybridInit where
  ReducerStrategy : Bool
  EdgeColoring : List (ℕ × ℕ)
  EdgeFluxes : Option (ℕ × ℕ)

/-- `HybridParallelInitialization`: the decision is local to the rank
(`parallelEff < COLORING_EFF_THRESH`, with the threshold passed in since its
definition lives outside the provided source).  `coloring` lists the edge
count of each color of the coloring currently held by the geometry;
`SetNaturalEdgeColoring` (modelled from the spec: a single sequential color
containing all `nEdge` edges) replaces it when the reducer is chosen and more
than one color is present; the reducer forces group size `1` and allocates the
edge-indexed `EdgeFluxes` buffer sized by `nEdge` and `nVar`. -/
def hybridParallelInit (thresh parallelEff : ℚ) (coloring : List ℕ)
    (nEdge nVar cfgGroupSize : ℕ) : HybridInit :=
  let reducerStrategy := decide (parallelEff < thresh)
  let coloring := if reducerStrategy && decide (coloring.length > 1) then [nEdge] else coloring
  let edgeColoring :=
    if coloring.isEmpty then []
    else
      let groupSize := if reducerStrategy then 1 else cfgGroupSize
      coloring.map fun numNonZeros => (numNonZeros, groupSize)
  { ReducerStrategy := reducerStrategy
    EdgeColoring := edgeColoring
    EdgeFluxes := if reducerStrategy then some (nEdge, nVar) else none }

/-! ## Pass-level accumulator state -/

/-- The solver-level accumulator state touched by the three passes. -/
structure SolverState where
  TotalCoeff : AeroCoeffs
  SurfaceCoeff : List AeroCoeffs
  Total_CNearFieldOF : ℚ
  Total_Heat : ℚ
  Total_MaxHeat : ℚ
  AllBoundInvCoeff : AeroCoeffs
  AllBound_CNearFieldOF_Inv : ℚ
  SurfaceInvCoeff : List AeroCoeffs
  AllBoundMntCoeff : AeroCoeffs
  SurfaceMntCoeff : List AeroCoeffs
  AllBoundViscCoeff : AeroCoeffs
  SurfaceViscCoeff : List AeroCoeffs
  AllBound_HF_Visc : ℚ
  AllBound_MaxHF_Visc : ℚ
  Surface_HF_Visc : List ℚ
  Surface_MaxHF_Visc : List ℚ

/-- A solver state with every accumulator zeroed (empty per-surface arrays). -/
def SolverState.init : SolverState :=
  ⟨AeroCoeffs.zero, [], 0, 0, 0, AeroCoeffs.zero, 0, [], AeroCoeffs.zero, [],
   AeroCoeffs.zero, [], 0, 0, [], []⟩

/-- The projection of the solver state exposed to callers as the per-iteration
totals (the fields named by the zeroing block of `Pressure_Forces`). -/
def exposedTotals (s : SolverState) :
    AeroCoeffs × List AeroCoeffs × ℚ × ℚ × ℚ :=
  (s.TotalCoeff, s.SurfaceCoeff, s.Total_CNearFieldOF, s.Total_Heat, s.Total_MaxHeat)

/-- State effect of one `Pressure_Forces` pass, given the values its marker
loop leaves in `AllBoundInvCoeff` (`inv`), `AllBound_CNearFieldOF_Inv` (`nf`)
and `SurfaceInvCoeff` (`surfInv`): the pass first zeroes `TotalCoeff`,
`Total_CNearFieldOF`, `Total_Heat`, `Total_MaxHeat`, `SurfaceCoeff` and its
own accumulators, then ASSIGNS the totals from the inviscid results
(recomputing `CEff`/`CMerit` from its own sums; the per-surface totals copy
only the 10 fields written by the source loop, the rest stay zeroed). -/
def pressurePassTotals (inv : AeroCoeffs) (nf : ℚ) (surfInv : List AeroCoeffs)
    (s : SolverState) : SolverState :=
  { TotalCoeff :=
      { CD := inv.CD, CL := inv.CL, CSF := inv.CSF
        CEff := inv.CL / (inv.CD + EPS)
        CFx := inv.CFx, CFy := inv.CFy, CFz := inv.CFz
        CMx := inv.CMx, CMy := inv.CMy, CMz := inv.CMz
        CoPx := inv.CoPx, CoPy := inv.CoPy, CoPz := inv.CoPz
        CT := inv.CT, CQ := inv.CQ
        CMerit := inv.CT / (inv.CQ + EPS) }
    SurfaceCoeff := surfInv.map fun sc =>
      { AeroCoeffs.zero with
        CL := sc.CL, CD := sc.CD, CSF := sc.CSF
        CEff := sc.CL / (sc.CD + EPS)
        CFx := sc.CFx, CFy := sc.CFy, CFz := sc.CFz
        CMx := sc.CMx, CMy := sc.CMy, CMz := sc.CMz }
    Total_CNearFieldOF := nf
    Total_Heat := 0
    Total_MaxHeat := 0
    AllBoundInvCoeff := inv
    AllBound_CNearFieldOF_Inv := nf
    SurfaceInvCoeff := surfInv
    AllBoundMntCoeff := s.AllBoundMntCoeff
    SurfaceMntCoeff := s.SurfaceMntCoeff
    AllBoundViscCoeff := s.AllBoundViscCoeff
    SurfaceViscCoeff := s.SurfaceViscCoeff
    AllBound_HF_Visc := s.AllBound_HF_Visc
    AllBound_MaxHF_Visc := s.AllBound_MaxHF_Visc
    Surface_HF_Visc := s.Surface_HF_Visc
    Surface_MaxHF_Visc := s.Surface_MaxHF_Visc }

/-- State effect of one `Momentum_Forces` pass given its marker-loop results:
totals are accumulated with `+=` on top of the pressure pass, `TotalCoeff`'s
ratios are recomputed from its own updated sums, while the per-surface `CEff`
total accumulates `+= SurfaceMntCoeff.CL/(SurfaceMntCoeff.CD+EPS)`. -/
def momentumPassTotals (mnt : AeroCoeffs) (surfMnt : List AeroCoeffs)
    (s : SolverState) : SolverState :=
  let T := s.TotalCoeff
  let cd := T.CD + mnt.CD
  let cl := T.CL + mnt.CL
  let ct := T.CT + mnt.CT
  let cq := T.CQ + mnt.CQ
  { TotalCoeff :=
      { CD := cd, CL := cl, CSF := T.CSF + mnt.CSF
        CEff := cl / (cd + EPS)
        CFx := T.CFx + mnt.CFx, CFy := T.CFy + mnt.CFy, CFz := T.CFz + mnt.CFz
        CMx := T.CMx + mnt.CMx, CMy := T.CMy + mnt.CMy, CMz := T.CMz + mnt.CMz
        CoPx := T.CoPx + mnt.CoPx, CoPy := T.CoPy + mnt.CoPy, CoPz := T.CoPz + mnt.CoPz
        CT := ct, CQ := cq
        CMerit := ct / (cq + EPS) }
    SurfaceCoeff := List.zipWith (fun t m =>
      { CL := t.CL + m.CL, CD := t.CD + m.CD, CSF := t.CSF + m.CSF
        CEff := t.CEff + m.CL / (m.CD + EPS)
        CFx := t.CFx + m.CFx, CFy := t.CFy + m.CFy, CFz := t.CFz + m.CFz
        CMx := t.CMx + m.CMx, CMy := t.CMy + m.CMy, CMz := t.CMz + m.CMz
        CoPx := t.CoPx, CoPy := t.CoPy, CoPz := t.CoPz
        CT := t.CT, CQ := t.CQ, CMerit := t.CMerit }) s.SurfaceCoeff surfMnt
    Total_CNearFieldOF := s.Total_CNearFieldOF
    Total_Heat := s.Total_Heat
    Total_MaxHeat := s.Total_MaxHeat
    AllBoundInvCoeff := s.AllBoundInvCoeff
    AllBound_CNearFieldOF_Inv := s.AllBound_CNearFieldOF_Inv
    SurfaceInvCoeff := s.SurfaceInvCoeff
    AllBoundMntCoeff := mnt
    SurfaceMntCoeff := surfMnt
    AllBoundViscCoeff := s.AllBoundViscCoeff
    SurfaceViscCoeff := s.SurfaceViscCoeff
    AllBound_HF_Visc := s.AllBound_HF_Visc
    AllBound_MaxHF_Visc := s.AllBound_MaxHF_Visc
    Surface_HF_Visc := s.Surface_HF_Visc
    Surface_MaxHF_Visc := s.Surface_MaxHF_Visc }

/-- State effect of one `Friction_Forces` pass given its marker-loop results:
totals accumulate with `+=` and `TotalCoeff.CEff` is recomputed from its own
sums, but `TotalCoeff.CMerit` is computed from `AllBoundViscCoeff`'s `CT`/`CQ`
and the per-surface `CEff` total from `SurfaceViscCoeff.CL` over the updated
total `CD` — both transcribed verbatim from the source. -/
def frictionPassTotals (visc : AeroCoeffs) (hf maxhf : ℚ)
    (surfVisc : List AeroCoeffs) (surfHF surfMaxHF : List ℚ)
    (s : SolverState) : SolverState :=
  let T := s.TotalCoeff
  let cd := T.CD + visc.CD
  let cl := T.CL + visc.CL
  { TotalCoeff :=
      { CD := cd, CL := cl, CSF := T.CSF + visc.CSF
        CEff := cl / (cd + EPS)
        CFx := T.CFx + visc.CFx, CFy := T.CFy + visc.CFy, CFz := T.CFz + visc.CFz
        CMx := T.CMx + visc.CMx, CMy := T.CMy + visc.CMy, CMz := T.CMz + visc.CMz
        CoPx := T.CoPx + visc.CoPx, CoPy := T.CoPy + visc.CoPy, CoPz := T.CoPz + visc.CoPz
        CT := T.CT + visc.CT, CQ := T.CQ + visc.CQ
        CMerit := visc.CT / (visc.CQ + EPS) }
    SurfaceCoeff := List.zipWith (fun t v =>
      let scd := t.CD + v.CD
      { CL := t.CL + v.CL, CD := scd, CSF := t.CSF + v.CSF
        CEff := v.CL / (scd + EPS)
        CFx := t.CFx + v.CFx, CFy := t.CFy + v.CFy, CFz := t.CFz + v.CFz
        CMx := t.CMx + v.CMx, CMy := t.CMy + v.CMy, CMz := t.CMz + v.CMz
        CoPx := t.CoPx, CoPy := t.CoPy, CoPz := t.CoPz
        CT := t.CT, CQ := t.CQ, CMerit := t.CMerit }) s.SurfaceCoeff surfVisc
    Total_CNearFieldOF := s.Total_CNearFieldOF
    Total_Heat := hf
    Total_MaxHeat := maxhf
    AllBoundInvCoeff := s.AllBoundInvCoeff
    AllBound_CNearFieldOF_Inv := s.AllBound_CNearFieldOF_Inv
    SurfaceInvCoeff := s.SurfaceInvCoeff
    AllBoundMntCoeff := s.AllBoundMntCoeff
    SurfaceMntCoeff := s.SurfaceMntCoeff
    AllBoundViscCoeff := visc
    SurfaceViscCoeff := surfVisc
    AllBound_HF_Visc := hf
    AllBound_MaxHF_Visc := maxhf
    Surface_HF_Visc := surfHF
    Surface_MaxHF_Visc := surfMaxHF }

/-! ## Helper lemmas -/

theorem forceLoopCounter_eq (n : ℕ) : forceLoopCounter n = n := by
  induction n with
  | zero => rfl
  | succ k ih =>
    unfold forceLoopCounter at ih ⊢
    rw [List.range_succ, List.foldl_append, ih]
    rfl

theorem foldl_add_pow8 (l : List ℚ) (a : ℚ) :
    l.foldl (fun acc m => acc + m ^ 8) a = a + (l.map fun x => x ^ 8).sum := by
  induction l generalizing a with
  | nil => simp
  | cons x xs ih => simp [ih, add_assoc]

theorem pressureMarkerRun_CPressure_aux (c : Cfg) (mon : Bool)
    (verts : List PressureVertexIn) (s : PressureMarkerState) :
    (verts.foldl (pressureVertexStep c mon) s).CPressure
      = s.CPressure ++ verts.map fun v => (v.pressure - c.pressureInf) * c.factor * c.refArea := by
  induction verts generalizing s with
  | nil => simp
  | cons v vs ih =>
    rw [List.foldl_cons, ih]
    by_cases h : (v.domain && mon) = true <;>
      simp [pressureVertexStep, h]

theorem pressureMarkerRun_CPressure (c : Cfg) (mon : Bool) (verts : List PressureVertexIn) :
    (pressureMarkerRun c mon verts).CPressure
      = verts.map fun v => (v.pressure - c.pressureInf) * c.factor * c.refArea := by
  rw [pressureMarkerRun, pressureMarkerRun_CPressure_aux]
  rfl

theorem pressureMarkerRun_Force_aux (c : Cfg) (mon : Bool)
    (verts : List PressureVertexIn) (s : PressureMarkerState) (i : ℕ) :
    (verts.foldl (pressureVertexStep c mon) s).ForceInviscid i
      = s.ForceInviscid i
        + ((verts.filter fun v => v.domain && mon).map fun v => pressureForceContrib c v i).sum := by
  induction verts generalizing s with
  | nil => simp
  | cons v vs ih =>
    rw [List.foldl_cons, ih]
    by_cases h : (v.domain && mon) = true
    · by_cases hi : i < c.nDim <;>
        simp [pressureVertexStep, h, pressureForceContrib, hi, add_assoc]
    · simp [pressureVertexStep, h]

theorem momentumMarkerRun_Force_aux (c : Cfg) (mon : Bool)
    (verts : List MomentumVertexIn) (s : MomentumMarkerState) (i : ℕ) :
    (verts.foldl (momentumVertexStep c mon) s).ForceMomentum i
      = s.ForceMomentum i
        + ((verts.filter fun v => v.domain && mon).map fun v => momentumForceContrib c v i).sum := by
  induction verts generalizing s with
  | nil => simp
  | cons v vs ih =>
    rw [List.foldl_cons, ih]
    by_cases h : (v.domain && mon) = true
    · by_cases hi : i < c.nDim <;>
        simp [momentumVertexStep, h, momentumForceContrib, hi, add_assoc]
    · simp [momentumVertexStep, h]

theorem frictionMarkerRun_viz_aux (sqrtF : ℚ → ℚ) (c : Cfg) (mon : Bool)
    (verts : List FrictionVertexIn) (s : FrictionMarkerState) :
    (verts.foldl (frictionVertexStep sqrtF c mon) s).HeatFlux
        = s.HeatFlux ++ verts.map (fun v => heatFluxVal sqrtF c v) ∧
    (verts.foldl (frictionVertexStep sqrtF c mon) s).YPlus
        = s.YPlus ++ verts.map (fun v => yPlusVal sqrtF c v) ∧
    (verts.foldl (frictionVertexStep sqrtF c mon) s).CSkinFriction
        = s.CSkinFriction ++ verts.map (fun v => fun i => cSkinFrictionVal sqrtF c v i) := by
  induction verts generalizing s with
  | nil => simp
  | cons v vs ih =>
    rw [List.foldl_cons]
    refine ⟨?_, ?_, ?_⟩
    · rw [(ih _).1]
      by_cases h : (v.domain && mon) = true <;> simp [frictionVertexStep, h]
    · rw [(ih _).2.1]
      by_cases h : (v.domain && mon) = true <;> simp [frictionVertexStep, h]
    · rw [(ih _).2.2]
      by_cases h : (v.domain && mon) = true <;> simp [frictionVertexStep, h]

theorem frictionMarkerRun_HF_aux (sqrtF : ℚ → ℚ) (c : Cfg) (mon : Bool)
    (verts : List FrictionVertexIn) (s : FrictionMarkerState) :
    (verts.foldl (frictionVertexStep sqrtF c mon) s).HF
      = s.HF + ((verts.filter fun v => v.domain && mon).map
          fun v => heatFluxVal sqrtF c v * faceArea sqrtF c.nDim v.normal).sum := by
  induction verts generalizing s with
  | nil => simp
  | cons v vs ih =>
    rw [List.foldl_cons, ih]
    by_cases h : (v.domain && mon) = true <;>
      simp [frictionVertexStep, h, add_assoc]

theorem frictionMarkerRun_MaxHF_aux (sqrtF : ℚ → ℚ) (c : Cfg) (mon : Bool)
    (verts : List FrictionVertexIn) (s : FrictionMarkerState) :
    (verts.foldl (frictionVertexStep sqrtF c mon) s).MaxHF
      = s.MaxHF + ((verts.filter fun v => v.domain && mon).map
          fun v => heatFluxVal sqrtF c v ^ 8).sum := by
  induction verts generalizing s with
  | nil => simp
  | cons v vs ih =>
    rw [List.foldl_cons, ih]
    by_cases h : (v.domain && mon) = true <;>
      simp [frictionVertexStep, h, add_assoc]

/-! ## Claim theorems -/

/-- C3: the per-vertex moment accumulation of `Momentum_Forces` and
`Friction_Forces` is identical to that of `Pressure_Forces`: the force loop
leaves its counter equal to `nDim`, so the `iDim == 3` guard used after the
loop is equivalent to the `nDim == 3` guard of `Pressure_Forces`, and the
cross-product/helper-sum updates agree for every input (3D terms only when
the dimension is 3, the z-moment and `MomentZ_Force` terms always). -/
theorem C3_moment_accumulation_equivalence :
    (∀ n : ℕ, forceLoopCounter n = n) ∧
    (∀ n : ℕ, (forceLoopCounter n = 3) ↔ n = 3) ∧
    (∀ (n : ℕ) (rl : ℚ) (force dist coord : ℕ → ℚ) (a : MomentAcc),
      momentumMomentUpdate n rl force dist coord a
        = pressureMomentUpdate n rl force dist coord a) ∧
    (∀ (n : ℕ) (rl : ℚ) (force dist coord : ℕ → ℚ) (a : MomentAcc),
      frictionMomentUpdate n rl force dist coord a
        = pressureMomentUpdate n rl force dist coord a) := by
  refine ⟨forceLoopCounter_eq, fun n => by rw [forceLoopCounter_eq], ?_, ?_⟩
  · intro n rl force dist coord a
    unfold momentumMomentUpdate pressureMomentUpdate
    rw [forceLoopCounter_eq]
  · intro n rl force dist coord a
    unfold frictionMomentUpdate pressureMomentUpdate
    rw [forceLoopCounter_eq]

/-- C7: after `allocate(n)` — and after any subsequent `setZero()` or
`setZero(i)` — reading any of the 16 coefficient fields at any index `i < n`
returns exactly 0. -/
theorem C7_allocate_reads_zero (junk : ℚ) (n i : ℕ) (f : CoeffField) (h : i < n) :
    (AeroCoeffsArray.allocate junk n).read f i = some 0 ∧
    (AeroCoeffsArray.allocate junk n).setZero.read f i = some 0 ∧
    ∀ j, ((AeroCoeffsArray.allocate junk n).setZeroIdx j).read f i = some 0 := by
  have hfield : ∀ g : CoeffField,
      (AeroCoeffsArray.allocate junk n).field g = List.replicate n (0 : ℚ) := by
    intro g
    cases g <;>
      simp [AeroCoeffsArray.allocate, AeroCoeffsArray.setZero, AeroCoeffsArray.field]
  have hzfield : ∀ g : CoeffField,
      (AeroCoeffsArray.allocate junk n).setZero.field g = List.replicate n (0 : ℚ) := by
    intro g
    cases g <;>
      simp [AeroCoeffsArray.allocate, AeroCoeffsArray.setZero, AeroCoeffsArray.field]
  have hsfield : ∀ (j : ℕ) (g : CoeffField),
      ((AeroCoeffsArray.allocate junk n).setZeroIdx j).field g
        = (List.replicate n (0 : ℚ)).set j 0 := by
    intro j g
    cases g <;>
      simp [AeroCoeffsArray.allocate, AeroCoeffsArray.setZero, AeroCoeffsArray.setZeroIdx,
        AeroCoeffsArray.field]
  refine ⟨?_, ?_, ?_⟩
  · rw [AeroCoeffsArray.read, hfield]
    simp [List.getElem?_replicate, h]
  · rw [AeroCoeffsArray.read, hzfield]
    simp [List.getElem?_replicate, h]
  · intro j
    rw [AeroCoeffsArray.read, hsfield]
    rcases eq_or_ne j i with rfl | hji
    · rw [List.getElem?_set_self]
      simp [h]
    · rw [List.getElem?_set_ne hji]
      simp [List.getElem?_replicate, h]

/-- C7 witness: concrete instantiation at `n = 3`, `i = 1`, field `CMy`,
junk value `7/2`. -/
theorem C7_allocate_reads_zero_witness :
    (1 < 3) ∧
    ((AeroCoeffsArray.allocate (7 / 2) 3).read .cmy 1 = some 0 ∧
     (AeroCoeffsArray.allocate (7 / 2) 3).setZero.read .cmy 1 = some 0 ∧
     ∀ j, ((AeroCoeffsArray.allocate (7 / 2) 3).setZeroIdx j).read .cmy 1 = some 0) :=
  ⟨by decide, C7_allocate_reads_zero (7 / 2) 3 1 .cmy (by decide)⟩

/-- C9: `Pressure_Forces` zeroes `TotalCoeff`, `SurfaceCoeff`,
`Total_CNearFieldOF`, `Total_Heat` and `Total_MaxHeat` before writing its own
results, so its exposed totals are independent of whatever accumulator state
an earlier `Momentum_Forces` or `Friction_Forces` pass left behind, and the
heat totals are exactly 0 after a pressure pass (they are only repopulated by
a subsequent `Friction_Forces` pass). -/
theorem C9_pressure_discards_prior_totals
    (inv : AeroCoeffs) (nf : ℚ) (surfInv : List AeroCoeffs)
    (mnt : AeroCoeffs) (surfMnt : List AeroCoeffs)
    (visc : AeroCoeffs) (hf maxhf : ℚ) (surfVisc : List AeroCoeffs)
    (surfHF surfMaxHF : List ℚ) (s1 s2 : SolverState) :
    exposedTotals (pressurePassTotals inv nf surfInv s1)
      = exposedTotals (pressurePassTotals inv nf surfInv s2) ∧
    (pressurePassTotals inv nf surfInv s1).Total_Heat = 0 ∧
    (pressurePassTotals inv nf surfInv s1).Total_MaxHeat = 0 ∧
    exposedTotals
        (pressurePassTotals inv nf surfInv (momentumPassTotals mnt surfMnt s1))
      = exposedTotals (pressurePassTotals inv nf surfInv s1) ∧
    exposedTotals
        (pressurePassTotals inv nf surfInv
          (frictionPassTotals visc hf maxhf surfVisc surfHF surfMaxHF s1))
      = exposedTotals (pressurePassTotals inv nf surfInv s1) ∧
    (frictionPassTotals visc hf maxhf surfVisc surfHF surfMaxHF
        (pressurePassTotals inv nf surfInv s1)).Total_Heat = hf :=
  ⟨rfl, rfl, rfl, rfl, rfl, rfl⟩

/-- C4: the `COMM_FULL` reductions of all three passes all-reduce (sum) only
the raw accumulated scalars and per-surface entries, then recompute `CEff` and
`CMerit` from the reduced sums; the ratio fields of the per-rank states are
never read by the reduction (scrubbing them changes nothing). -/
theorem C4_reduce_raw_then_rederive (ranks : List AeroCoeffs) (x : AeroCoeffs) :
    ((reduceAllBoundInv ranks).CD = (ranks.map AeroCoeffs.CD).sum ∧
     (reduceAllBoundInv ranks).CL = (ranks.map AeroCoeffs.CL).sum ∧
     (reduceAllBoundInv ranks).CT = (ranks.map AeroCoeffs.CT).sum ∧
     (reduceAllBoundInv ranks).CQ = (ranks.map AeroCoeffs.CQ).sum ∧
     (reduceAllBoundInv ranks).CEff
       = (ranks.map AeroCoeffs.CL).sum / ((ranks.map AeroCoeffs.CD).sum + EPS) ∧
     (reduceAllBoundInv ranks).CMerit
       = (ranks.map AeroCoeffs.CT).sum / ((ranks.map AeroCoeffs.CQ).sum + EPS) ∧
     reduceAllBoundInv (ranks.map scrubRatios) = reduceAllBoundInv ranks) ∧
    ((reduceAllBoundMnt ranks).CD = (ranks.map AeroCoeffs.CD).sum ∧
     (reduceAllBoundMnt ranks).CEff
       = (ranks.map AeroCoeffs.CL).sum / ((ranks.map AeroCoeffs.CD).sum + EPS) ∧
     (reduceAllBoundMnt ranks).CMerit
       = (ranks.map AeroCoeffs.CT).sum / ((ranks.map AeroCoeffs.CQ).sum + EPS) ∧
     reduceAllBoundMnt (ranks.map scrubRatios) = reduceAllBoundMnt ranks) ∧
    ((reduceAllBoundVisc ranks).CD = (ranks.map AeroCoeffs.CD).sum ∧
     (reduceAllBoundVisc ranks).CEff
       = (ranks.map AeroCoeffs.CL).sum / ((ranks.map AeroCoeffs.CD).sum + EPS) ∧
     (reduceAllBoundVisc ranks).CMerit
       = (ranks.map AeroCoeffs.CT).sum / ((ranks.map AeroCoeffs.CQ).sum + EPS) ∧
     reduceAllBoundVisc (ranks.map scrubRatios) = reduceAllBoundVisc ranks) ∧
    ((reduceSurfaceAt ranks x).CL = (ranks.map AeroCoeffs.CL).sum ∧
     (reduceSurfaceAt ranks x).CD = (ranks.map AeroCoeffs.CD).sum ∧
     (reduceSurfaceAt ranks x).CEff
       = (ranks.map AeroCoeffs.CL).sum / ((ranks.map AeroCoeffs.CD).sum + EPS) ∧
     (reduceSurfaceAt ranks x).CT = x.CT ∧
     reduceSurfaceAt (ranks.map scrubRatios) x = reduceSurfaceAt ranks x) := by
  have hmap : ∀ (g : AeroCoeffs → ℚ), (∀ a, g (scrubRatios a) = g a) →
      (ranks.map scrubRatios).map g = ranks.map g := by
    intro g hg
    rw [List.map_map]
    exact List.map_congr_left fun a _ => hg a
  have hCD := hmap AeroCoeffs.CD fun a => rfl
  have hCL := hmap AeroCoeffs.CL fun a => rfl
  have hCSF := hmap AeroCoeffs.CSF fun a => rfl
  have hCFx := hmap AeroCoeffs.CFx fun a => rfl
  have hCFy := hmap AeroCoeffs.CFy fun a => rfl
  have hCFz := hmap AeroCoeffs.CFz fun a => rfl
  have hCMx := hmap AeroCoeffs.CMx fun a => rfl
  have hCMy := hmap AeroCoeffs.CMy fun a => rfl
  have hCMz := hmap AeroCoeffs.CMz fun a => rfl
  have hCoPx := hmap AeroCoeffs.CoPx fun a => rfl
  have hCoPy := hmap AeroCoeffs.CoPy fun a => rfl
  have hCoPz := hmap AeroCoeffs.CoPz fun a => rfl
  have hCT := hmap AeroCoeffs.CT fun a => rfl
  have hCQ := hmap AeroCoeffs.CQ fun a => rfl
  refine ⟨⟨rfl, rfl, rfl, rfl, rfl, rfl, ?_⟩, ⟨rfl, rfl, rfl, ?_⟩,
    ⟨rfl, rfl, rfl, ?_⟩, ⟨rfl, rfl, rfl, rfl, ?_⟩⟩ <;>
    simp only [reduceAllBoundInv, reduceAllBoundMnt, reduceAllBoundVisc, reduceSurfaceAt,
      hCD, hCL, hCSF, hCFx, hCFy, hCFz, hCMx, hCMy, hCMz, hCoPx, hCoPy, hCoPz, hCT, hCQ]

/-- C8: in all three integrators the per-vertex force/heat contributions are
taken only from domain-owned nodes of monitored markers (sum over the
`domain && monitoring` filter); an unmonitored eligible marker keeps its
per-marker accumulators (`InvCoeff`, `CNearFieldOF_Inv`, `MntCoeff`,
`ViscCoeff`, `HF_Visc`, `MaxHF_Visc`) exactly zero; and the visualization
arrays (`CPressure`, `HeatFlux`, `YPlus`, `CSkinFriction`) receive one entry
for every vertex of the marker, halo nodes included. -/
theorem C8_ownership_monitoring_gating
    (sqrtF root8 : ℚ → ℚ) (c : Cfg) (b : BoundaryKind) (mon : Bool)
    (pverts : List PressureVertexIn) (mverts : List MomentumVertexIn)
    (fverts : List FrictionVertexIn) (i : ℕ) :
    ((pressureMarker c b mon pverts).CPressure
        = pverts.map fun v => (v.pressure - c.pressureInf) * c.factor * c.refArea) ∧
    ((frictionMarker sqrtF root8 c mon fverts).HeatFlux
        = fverts.map fun v => heatFluxVal sqrtF c v) ∧
    ((frictionMarker sqrtF root8 c mon fverts).YPlus
        = fverts.map fun v => yPlusVal sqrtF c v) ∧
    ((frictionMarker sqrtF root8 c mon fverts).CSkinFriction
        = fverts.map fun v => fun j => cSkinFrictionVal sqrtF c v j) ∧
    ((pressureMarkerRun c mon pverts).ForceInviscid i
        = ((pverts.filter fun v => v.domain && mon).map
            fun v => pressureForceContrib c v i).sum) ∧
    ((momentumMarkerRun c mon mverts).ForceMomentum i
        = ((mverts.filter fun v => v.domain && mon).map
            fun v => momentumForceContrib c v i).sum) ∧
    ((frictionMarkerRun sqrtF c mon fverts).HF
        = ((fverts.filter fun v => v.domain && mon).map
            fun v => heatFluxVal sqrtF c v * faceArea sqrtF c.nDim v.normal).sum) ∧
    ((frictionMarkerRun sqrtF c mon fverts).MaxHF
        = ((fverts.filter fun v => v.domain && mon).map
            fun v => heatFluxVal sqrtF c v ^ 8).sum) ∧
    ((pressureMarker c b false pverts).InvCoeff = AeroCoeffs.zero) ∧
    ((pressureMarker c b false pverts).CNearFieldOF_Inv = 0) ∧
    (momentumMarker c false mverts = AeroCoeffs.zero) ∧
    ((frictionMarker sqrtF root8 c false fverts).ViscCoeff = AeroCoeffs.zero) ∧
    ((frictionMarker sqrtF root8 c false fverts).HF = 0) ∧
    ((frictionMarker sqrtF root8 c false fverts).MaxHF = 0) := by
  have hviz := frictionMarkerRun_viz_aux sqrtF c mon fverts FrictionMarkerState.init
  have hmarkerViz : ∀ m : Bool,
      (frictionMarker sqrtF root8 c m fverts).HeatFlux
          = (frictionMarkerRun sqrtF c m fverts).HeatFlux ∧
      (frictionMarker sqrtF root8 c m fverts).YPlus
          = (frictionMarkerRun sqrtF c m fverts).YPlus ∧
      (frictionMarker sqrtF root8 c m fverts).CSkinFriction
          = (frictionMarkerRun sqrtF c m fverts).CSkinFriction ∧
      (frictionMarker sqrtF root8 c m fverts).HF
          = (frictionMarkerRun sqrtF c m fverts).HF := by
    intro m
    cases m <;> simp [frictionMarker]
  have hpviz : ∀ m : Bool, (pressureMarker c b m pverts).CPressure
      = (pressureMarkerRun c m pverts).CPressure := by
    intro m
    by_cases hb : b = BoundaryKind.nearfield <;>
      cases m <;> simp [pressureMarker, hb]
  have hHFzero : (frictionMarkerRun sqrtF c false fverts).HF = 0 := by
    rw [frictionMarkerRun, frictionMarkerRun_HF_aux]
    simp [FrictionMarkerState.init]
  have hMaxHFzero : (frictionMarkerRun sqrtF c false fverts).MaxHF = 0 := by
    rw [frictionMarkerRun, frictionMarkerRun_MaxHF_aux]
    simp [FrictionMarkerState.init]
  refine ⟨?_, ?_, ?_, ?_, ?_, ?_, ?_, ?_, ?_, ?_, ?_, ?_, ?_, ?_⟩
  · rw [hpviz, pressureMarkerRun_CPressure]
  · rw [(hmarkerViz mon).1, frictionMarkerRun, hviz.1]
    rfl
  · rw [(hmarkerViz mon).2.1, frictionMarkerRun, hviz.2.1]
    rfl
  · rw [(hmarkerViz mon).2.2.1, frictionMarkerRun, hviz.2.2]
    rfl
  · rw [pressureMarkerRun, pressureMarkerRun_Force_aux]
    simp [PressureMarkerState.init]
  · rw [momentumMarkerRun, momentumMarkerRun_Force_aux]
    simp [MomentumMarkerState.init]
  · rw [frictionMarkerRun, frictionMarkerRun_HF_aux]
    simp [FrictionMarkerState.init]
  · rw [frictionMarkerRun, frictionMarkerRun_MaxHF_aux]
    simp [FrictionMarkerState.init]
  · by_cases hb : b = BoundaryKind.nearfield <;> simp [pressureMarker, hb]
  · by_cases hb : b = BoundaryKind.nearfield <;> simp [pressureMarker, hb]
  · simp [momentumMarker]
  · simp [frictionMarker]
  · rw [(hmarkerViz false).2.2.2]
    exact hHFzero
  · simp [frictionMarker]
    exact hMaxHFzero

/-- C5: for a monitored viscous wall marker the max-heat-flux aggregate is the
1/8 root of the sum, over domain-owned vertices, of the 8th powers of the
local heat flux (an L8 norm, not a true maximum); the per-process
`AllBound_MaxHF_Visc` re-raises the marker values to the 8th power before
summing and rooting, and the cross-process value re-raises the local values to
the 8th power, all-reduces the 8th powers and takes the 1/8 root — pre-rooted
values are never combined directly. -/
theorem C5_maxhf_l8_norm (sqrtF root8 : ℚ → ℚ) (c : Cfg)
    (verts : List FrictionVertexIn) (h23 : c.nDim = 2 ∨ c.nDim = 3) :
    (frictionMarker sqrtF root8 c true verts).MaxHF
      = root8 (((verts.filter fun v => v.domain).map
          fun v => heatFluxVal sqrtF c v ^ 8).sum) ∧
    (∀ markerVals : List ℚ,
      allBoundMaxHF root8 markerVals = root8 ((markerVals.map fun x => x ^ 8).sum)) ∧
    (∀ locals : List ℚ,
      reduceAllBoundMaxHF root8 locals = root8 ((locals.map fun x => x ^ 8).sum)) ∧
    (∀ ranksMarkers : List (List ℚ),
      reduceAllBoundMaxHF root8 (ranksMarkers.map (allBoundMaxHF root8))
        = root8 ((ranksMarkers.map
            fun ms => root8 ((ms.map fun x => x ^ 8).sum) ^ 8).sum)) := by
  have hfoldsum : ∀ l : List ℚ, allBoundMaxHF root8 l = root8 ((l.map fun x => x ^ 8).sum) := by
    intro l
    rw [allBoundMaxHF, foldl_add_pow8]
    simp
  have hrun : (frictionMarkerRun sqrtF c true verts).MaxHF
      = ((verts.filter fun v => v.domain).map fun v => heatFluxVal sqrtF c v ^ 8).sum := by
    rw [frictionMarkerRun, frictionMarkerRun_MaxHF_aux]
    simp [FrictionMarkerState.init]
  refine ⟨?_, hfoldsum, fun _ => rfl, ?_⟩
  · rcases h23 with h2 | h3
    · simp [frictionMarker, frictionProject, h2, hrun]
    · have hn2 : c.nDim ≠ 2 := by rw [h3]; decide
      simp [frictionMarker, frictionProject, hn2, h3, hrun]
  · intro ranksMarkers
    rw [reduceAllBoundMaxHF, Allreduce, List.map_map]
    congr 1
    refine congrArg List.sum (List.map_congr_left fun ms _ => ?_)
    simp [Function.comp, hfoldsum]

/-- C5 witness: two vertices with heat fluxes accumulated on a 2D marker,
`root8` and `sqrt` instantiated by the identity. -/
theorem C5_maxhf_l8_norm_witness :
    ((2 : ℕ) = 2 ∨ (2 : ℕ) = 3) ∧
    ((frictionMarker id id
        { nDim := 2, refArea := 1, refLength := 1, refDensity := 1, refVel2 := 1
          pressureInf := 0, gamma := 7 / 5, gasConstant := 1, prandtlLam := 1
          refHeatFlux := 1, piNumber := 3, cosAlpha := 1, sinAlpha := 0
          cosBeta := 1, sinBeta := 0, origin := fun _ => 0, axisymmetric := false
          compressible := true, energy := true, qcr := false } true []).MaxHF
      = id ((([] : List FrictionVertexIn).filter fun v => v.domain).map
          (fun v => heatFluxVal id
            { nDim := 2, refArea := 1, refLength := 1, refDensity := 1, refVel2 := 1
              pressureInf := 0, gamma := 7 / 5, gasConstant := 1, prandtlLam := 1
              refHeatFlux := 1, piNumber := 3, cosAlpha := 1, sinAlpha := 0
              cosBeta := 1, sinBeta := 0, origin := fun _ => 0, axisymmetric := false
              compressible := true, energy := true, qcr := false } v ^ 8)).sum ∧
     allBoundMaxHF id [1, 2, 3] = id (([1, 2, 3].map fun x : ℚ => x ^ 8).sum)) :=
  ⟨Or.inl rfl,
   (C5_maxhf_l8_norm id id _ [] (Or.inl rfl)).1,
   (C5_maxhf_l8_norm id id
      { nDim := 2, refArea := 1, refLength := 1, refDensity := 1, refVel2 := 1
        pressureInf := 0, gamma := 7 / 5, gasConstant := 1, prandtlLam := 1
        refHeatFlux := 1, piNumber := 3, cosAlpha := 1, sinAlpha := 0
        cosBeta := 1, sinBeta := 0, origin := fun _ => 0, axisymmetric := false
        compressible := true, energy := true, qcr := false } [] (Or.inl rfl)).2.1 [1, 2, 3]⟩

/-- C6: when the measured parallel efficiency of the natural edge coloring is
below the threshold, `HybridParallelInitialization` sets `ReducerStrategy`,
switches to a single natural color covering all edges with group size 1, and
allocates the `EdgeFluxes` buffer sized by the edge count and `nVar`; the
decision is a function of the rank-local efficiency only. -/
theorem C6_reducer_fallback (thresh parallelEff : ℚ) (coloring : List ℕ)
    (nEdge nVar cfgGroupSize : ℕ) (heff : parallelEff < thresh)
    (hne : coloring ≠ []) (hcover : coloring.sum = nEdge) :
    (hybridParallelInit thresh parallelEff coloring nEdge nVar cfgGroupSize).ReducerStrategy
      = true ∧
    (hybridParallelInit thresh parallelEff coloring nEdge nVar cfgGroupSize).EdgeColoring
      = [(nEdge, 1)] ∧
    (hybridParallelInit thresh parallelEff coloring nEdge nVar cfgGroupSize).EdgeFluxes
      = some (nEdge, nVar) := by
  have hdec : decide (parallelEff < thresh) = true := decide_eq_true heff
  rcases coloring with _ | ⟨a, _ | ⟨b, t⟩⟩
  · exact absurd rfl hne
  · have ha : a = nEdge := by simpa using hcover
    subst ha
    refine ⟨?_, ?_, ?_⟩ <;> simp [hybridParallelInit, hdec]
  · refine ⟨?_, ?_, ?_⟩ <;> simp [hybridParallelInit, hdec]

/-- C6 witness: efficiency 1/2 below threshold 1 on a two-color layout of 8
edges with 4 variables. -/
theorem C6_reducer_fallback_witness :
    ((1 : ℚ) / 2 < 1) ∧ ([3, 5] ≠ ([] : List ℕ)) ∧ ([3, 5].sum = 8) ∧
    ((hybridParallelInit 1 (1 / 2) [3, 5] 8 4 512).ReducerStrategy = true ∧
     (hybridParallelInit 1 (1 / 2) [3, 5] 8 4 512).EdgeColoring = [(8, 1)] ∧
     (hybridParallelInit 1 (1 / 2) [3, 5] 8 4 512).EdgeFluxes = some (8, 4)) :=
  ⟨by norm_num, by decide, by decide,
   C6_reducer_fallback 1 (1 / 2) [3, 5] 8 4 512 (by norm_num) (by decide) (by decide)⟩

/-- C10: `Friction_Forces` divides by the face-normal norm, the density and
the kinematic viscosity without any guards; under the precondition that the
normal restricted to the first `nDim` components is nonzero and density and
viscosity are strictly positive, every such denominator is nonzero and the
argument of the friction-velocity square root is nonnegative — while for a
zero normal the `UnitNormal` denominator `Area` is exactly zero (no branch
handles that case). -/
theorem C10_friction_unguarded_divisions (sqrtF : ℚ → ℚ)
    (hsqrt : ∀ x : ℚ, 0 ≤ x → (sqrtF x = 0 ↔ x = 0))
    (c : Cfg) (v : FrictionVertexIn)
    (hnormal : ∃ i, i < c.nDim ∧ v.normal i ≠ 0)
    (hdens : 0 < v.density) (hvisc : 0 < v.viscosity) :
    faceArea sqrtF c.nDim v.normal ≠ 0 ∧
    v.density ≠ 0 ∧
    v.viscosity / v.density ≠ 0 ∧
    0 ≤ |wallShearStress sqrtF c v| / v.density ∧
    (∀ w : FrictionVertexIn, (∀ i, w.normal i = 0) →
      faceArea sqrtF c.nDim w.normal = 0) := by
  obtain ⟨i, hi, hne⟩ := hnormal
  have hsum : 0 < sumTo c.nDim fun j => v.normal j * v.normal j := by
    rw [sumTo]
    refine Finset.sum_pos' (fun j _ => mul_self_nonneg _) ⟨i, Finset.mem_range.mpr hi, ?_⟩
    exact mul_self_pos.mpr hne
  refine ⟨?_, ne_of_gt hdens, div_ne_zero (ne_of_gt hvisc) (ne_of_gt hdens),
    div_nonneg (abs_nonneg _) (le_of_lt hdens), ?_⟩
  · rw [faceArea]
    intro h0
    exact absurd ((hsqrt _ (le_of_lt hsum)).mp h0) (ne_of_gt hsum)
  · intro w hw
    rw [faceArea]
    have : (sumTo c.nDim fun j => w.normal j * w.normal j) = 0 := by
      rw [sumTo]
      exact Finset.sum_eq_zero fun j _ => by rw [hw j, mul_zero]
    rw [this]
    exact (hsqrt 0 le_rfl).mpr rfl

/-- C10 witness: a 2D vertex with normal (3,4), density 2 and viscosity 5,
square root instantiated by the identity. -/
theorem C10_friction_unguarded_divisions_witness :
    (∀ x : ℚ, 0 ≤ x → (id x = 0 ↔ x = 0)) ∧
    (∃ i, i < 2 ∧ (fun j => if j = 0 then (3 : ℚ) else if j = 1 then 4 else 0) i ≠ 0) ∧
    ((0 : ℚ) < 2) ∧ ((0 : ℚ) < 5) ∧
    faceArea id 2 (fun j => if j = 0 then (3 : ℚ) else if j = 1 then 4 else 0) ≠ 0 :=
  ⟨fun _ _ => Iff.rfl, ⟨0, by norm_num⟩, by norm_num, by norm_num,
   (C10_friction_unguarded_divisions id (fun _ _ => Iff.rfl)
      { nDim := 2, refArea := 1, refLength := 1, refDensity := 1, refVel2 := 1
        pressureInf := 0, gamma := 7 / 5, gasConstant := 1, prandtlLam := 1
        refHeatFlux := 1, piNumber := 3, cosAlpha := 1, sinAlpha := 0
        cosBeta := 1, sinBeta := 0, origin := fun _ => 0, axisymmetric := false
        compressible := true, energy := true, qcr := false }
      { gradVel := fun _ _ => 0, gradTemp := fun _ => 0, viscosity := 5, density := 2
        condNode := 0, normal := fun j => if j = 0 then (3 : ℚ) else if j = 1 then 4 else 0
        coord := fun _ => 0, coordNormal := fun _ => 0, domain := true }
      ⟨0, by norm_num⟩ (by norm_num) (by norm_num)).1⟩

/-- C1 (code bug): the derived-ratio invariant `CMerit = CT/(CQ+EPS)` is NOT
maintained by the accumulator plumbing: `Momentum_Forces` accumulates
`AllBoundMntCoeff.CMerit` with `+=` (two monitored inlet markers with
`CT = CQ = 1` each leave `CMerit = 1/(1+EPS) + 2/(2+EPS)`, not `2/(2+EPS)`),
and after a Pressure→Momentum→Friction sequence `TotalCoeff.CMerit` is
computed from `AllBoundViscCoeff`'s `CT`/`CQ` instead of `TotalCoeff`'s own
accumulated sums. -/
theorem C1_derived_ratio_left_inconsistent :
    ((allBoundMntFold
        [{ CT := 1, CQ := 1, CMerit := 1 / (1 + EPS) },
         { CT := 1, CQ := 1, CMerit := 1 / (1 + EPS) }]).CMerit
      ≠ (allBoundMntFold
          [{ CT := 1, CQ := 1, CMerit := 1 / (1 + EPS) },
           { CT := 1, CQ := 1, CMerit := 1 / (1 + EPS) }]).CT
        / ((allBoundMntFold
            [{ CT := 1, CQ := 1, CMerit := 1 / (1 + EPS) },
             { CT := 1, CQ := 1, CMerit := 1 / (1 + EPS) }]).CQ + EPS)) ∧
    ((frictionPassTotals { CT := 1, CQ := 1, CMerit := 1 / (1 + EPS) } 0 0 [] [] []
        (momentumPassTotals AeroCoeffs.zero []
          (pressurePassTotals { CT := 1, CQ := 1, CMerit := 1 / (1 + EPS) } 0 []
            SolverState.init))).TotalCoeff.CMerit
      ≠ (frictionPassTotals { CT := 1, CQ := 1, CMerit := 1 / (1 + EPS) } 0 0 [] [] []
          (momentumPassTotals AeroCoeffs.zero []
            (pressurePassTotals { CT := 1, CQ := 1, CMerit := 1 / (1 + EPS) } 0 []
              SolverState.init))).TotalCoeff.CT
        / ((frictionPassTotals { CT := 1, CQ := 1, CMerit := 1 / (1 + EPS) } 0 0 [] [] []
            (momentumPassTotals AeroCoeffs.zero []
              (pressurePassTotals { CT := 1, CQ := 1, CMerit := 1 / (1 + EPS) } 0 []
                SolverState.init))).TotalCoeff.CQ + EPS)) := by
  constructor
  · simp only [allBoundMntFold, allBoundMntStep, AeroCoeffs.zero, List.foldl_cons,
      List.foldl_nil]
    norm_num [EPS]
  · simp only [frictionPassTotals, momentumPassTotals, pressurePassTotals,
      AeroCoeffs.zero, SolverState.init]
    norm_num [EPS]

/-- C2 (code bug): in `Momentum_Forces` the global accumulation is NOT
name-aligned: a single monitored inlet marker whose `MntCoeff` has
`CMx = 0, CMz = 1` leaves `AllBoundMntCoeff.CMx = 1` (the source adds
`MntCoeff.CMz` into the `CMx` accumulator) and `AllBoundMntCoeff.CMz = 0`
(`CMz` is never accumulated in the marker loop), so neither moment component
equals the sum of the same-named per-marker components. -/
theorem C2_allbound_cmx_receives_cmz :
    (allBoundMntFold [{ CMz := 1, CQ := -1 }]).CMx = 1 ∧
    (allBoundMntFold [{ CMz := 1, CQ := -1 }]).CMz = 0 ∧
    (allBoundMntFold [{ CMz := 1, CQ := -1 }]).CMx
      ≠ ([({ CMz := 1, CQ := -1 } : AeroCoeffs)].map AeroCoeffs.CMx).sum ∧
    (allBoundMntFold [{ CMz := 1, CQ := -1 }]).CMz
      ≠ ([({ CMz := 1, CQ := -1 } : AeroCoeffs)].map AeroCoeffs.CMz).sum := by
  refine ⟨?_, ?_, ?_, ?_⟩ <;>
    simp only [allBoundMntFold, allBoundMntStep, AeroCoeffs.zero, List.foldl_cons,
      List.foldl_nil, List.map_cons, List.map_nil, List.sum_cons, List.sum_nil] <;>
    norm_num

end SU2
